import Mathlib

/-!
Shallow embedding of the AWATCH firmware core (src/awatch.ino).

The global variables of the sketch (tim, outtime, issleep, setstate,
weekday, dbuf) become the fields of a state record; the subprograms
that mutate them (setsleep, setdtimeout, the pin-change interrupt
handler, the long-press and short-press branches of loop, dbuffill,
doff, don) become state-transforming functions; the pure display
arithmetic of printscreen and the nibble-expansion helper expand4bit
of the display driver become pure functions on Nat.

Machine integers are modelled as Nat with explicit reduction modulo
2^32 where the AVR 32-bit unsigned-long arithmetic can wrap; the
display power (commands 0xAE / 0xAF sent by doff / don) is modelled
as a boolean field displayOn.
-/

namespace Awatch

/-- Compile-time constant TIMEOUT = 5000: display on-time in ms. -/
def TIMEOUT : Nat := 5000

/-- Compile-time constant TIME1224 = 24: the hour-of-day modulus (12/24h format). -/
def TIME1224 : Nat := 24

/-- Compile-time constant DWIDTH = 32: virtual display width. -/
def DWIDTH : Nat := 32

/-- Compile-time constant DLINES = 3: virtual display doubled lines. -/
def DLINES : Nat := 3

/-- Modulus of the AVR 32-bit unsigned-long arithmetic. -/
def U32 : Nat := 2 ^ 32

/-- The function expand4bit of the display driver: expand the lower
nibble 0000abcd of a byte to aabbccdd, each input bit duplicated to two
adjacent output bits.  Mirrors the three masked shift-or steps of the
source; the final result is reduced to a byte as the C return type is. -/
def expand4bit (b : Nat) : Nat :=
  let b1 := (b ||| (b <<< 2)) &&& 0x33
  let b2 := (b1 ||| (b1 <<< 1)) &&& 0x55
  (b2 ||| (b2 <<< 1)) % 256

/-- The global mutable state of the sketch: tim (global time, unsigned
long), outtime (display timeout deadline, unsigned long), issleep
(sleeping flag), setstate (setting state 0..6), weekday (day 0..6),
dbuf (the 96-byte display buffer), and displayOn modelling whether the
display was last sent 0xAF (on) or 0xAE (off). -/
structure WatchState where
  tim : Nat
  outtime : Nat
  issleep : Bool
  setstate : Nat
  weekday : Nat
  dbuf : Fin (DWIDTH * DLINES) → Nat
  displayOn : Bool

/-- dbuffill: fill the display buffer with a pattern byte. -/
def dbuffill (n : Nat) (s : WatchState) : WatchState :=
  { s with dbuf := fun _ => n }

/-- doff: display off (sends command 0xAE). -/
def doff (s : WatchState) : WatchState :=
  { s with displayOn := false }

/-- don: display on (sends command 0xAF). -/
def don (s : WatchState) : WatchState :=
  { s with displayOn := true }

/-- setsleep: prepare sleep.  In source order: setstate = 0, fill the
buffer with 0x00, switch the display off, set the sleeping flag.  (The
2 ms settling delay has no state effect.) -/
def setsleep (s : WatchState) : WatchState :=
  let s1 := { s with setstate := 0 }
  let s2 := dbuffill 0x00 s1
  let s3 := doff s2
  { s3 with issleep := true }

/-- setdtimeout: set the display-off deadline to millis() + TIMEOUT,
in 32-bit unsigned arithmetic; now is the current millis() value. -/
def setdtimeout (now : Nat) (s : WatchState) : WatchState :=
  { s with outtime := (now + TIMEOUT) % U32 }

/-- The pin-change interrupt handler ISR(PCINT0_vect): if sleeping,
refresh the display timeout, switch the display on and clear the
sleeping flag; otherwise no state change. -/
def pcint0 (now : Nat) (s : WatchState) : WatchState :=
  if s.issleep then
    let s1 := setdtimeout now s
    let s2 := don s1
    { s2 with issleep := false }
  else s

/-- The long-press branch of loop: `if (setstate++ > 5) setstate = 0`,
i.e. the old value is tested, then the state becomes old + 1, or 0 when
the old value exceeded 5. -/
def longPress (s : WatchState) : WatchState :=
  { s with setstate := if s.setstate > 5 then 0 else s.setstate + 1 }

/-- The short-press dispatch of loop on the current setting state:
state 1 resets the seconds (the subtrahend never exceeds tim, so the
unsigned subtraction cannot wrap), states 2..5 add a constant number of
milliseconds in 32-bit arithmetic, state 6 advances the weekday with
`if (weekday++ > 5) weekday = 0`, and any other state changes nothing. -/
def shortPress (s : WatchState) : WatchState :=
  if s.setstate = 1 then { s with tim := s.tim - s.tim / 1000 % 60 * 1000 }
  else if s.setstate = 2 then { s with tim := (s.tim + 60000) % U32 }
  else if s.setstate = 3 then { s with tim := (s.tim + 600000) % U32 }
  else if s.setstate = 4 then { s with tim := (s.tim + 3600000) % U32 }
  else if s.setstate = 5 then { s with tim := (s.tim + 36000000) % U32 }
  else if s.setstate = 6 then
    { s with weekday := if s.weekday > 5 then 0 else s.weekday + 1 }
  else s

/-- The drain of the watchdog tick residue in loop: `tim += wdtmillis`
in 32-bit arithmetic (wdtmillis is then zeroed). -/
def drainTim (t r : Nat) : Nat := (t + r) % U32

/-- Hours as printscreen computes them: (tim / 1000 / 60 / 60) % TIME1224. -/
def hoursOf (t : Nat) : Nat := t / 1000 / 60 / 60 % TIME1224

/-- Minutes as printscreen computes them: (tim / 1000 / 60) % 60. -/
def minutesOf (t : Nat) : Nat := t / 1000 / 60 % 60

/-- Seconds as printscreen computes them: (tim / 1000) % 60. -/
def secondsOf (t : Nat) : Nat := t / 1000 % 60

/-- The guard under which printscreen draws the seconds digits:
`setstate < 2 && setstate != 6`. -/
def secondsRendered (st : Nat) : Bool := decide (st < 2 ∧ st ≠ 6)

/-- The weekday block of printscreen: when setstate is 0 or 6 it
overwrites the weekday variable with (tim / 1000 / 60 / 60 / 24) % 7
(and draws it); otherwise weekday is left alone. -/
def printscreenWeekday (t w st : Nat) : Nat :=
  if st = 0 ∨ st = 6 then t / 1000 / 60 / 60 / 24 % 7 else w

/-- A state with the given setting state and time and all other fields
at their boot values (buffer clear, awake, weekday 0). -/
def mkState (st t : Nat) : WatchState :=
  { tim := t, outtime := 0, issleep := false, setstate := st, weekday := 0,
    dbuf := fun _ => 0, displayOn := true }

/-- A sleeping state (as left by setsleep at boot values). -/
def sleepState : WatchState := { mkState 0 0 with issleep := true }

/-- A state in setting state 6 (add day) with weekday 6, about to wrap. -/
def dayState : WatchState := { mkState 6 0 with weekday := 6 }

lemma resetSeconds_secondsOf (t : Nat) : (t - t / 1000 % 60 * 1000) / 1000 % 60 = 0 := by
  omega

/-- Helper: iterating the short press in setting state 5 keeps the
state at 5 and adds n times 36000000 ms modulo 2^32. -/
lemma shortPress_iter_five (t : Nat) (ht : t < U32) (n : Nat) :
    (shortPress^[n] (mkState 5 t)).setstate = 5 ∧
    (shortPress^[n] (mkState 5 t)).tim = (t + n * 36000000) % U32 := by
  induction n with
  | zero =>
      simp [mkState, Nat.mod_eq_of_lt ht]
  | succ n ih =>
      rw [Function.iterate_succ_apply']
      obtain ⟨hs, htim⟩ := ih
      constructor
      · simp [shortPress, hs]
      · simp [shortPress, hs, htim, Nat.mod_add_mod]
        congr 1
        ring

/-- C1 counterexample: in setting state 1 (reset seconds) the seconds
digits are rendered, although state 1 is not NONE, refuting the claim
that seconds are rendered iff the setting state is NONE. -/
theorem seconds_rendered_in_reset_state : secondsRendered 1 = true ∧ (1 : Nat) ≠ 0 := by
  decide

/-- C1 (amended): printscreen renders the seconds digits iff the
setting state is NONE (0) or RESET_SECONDS (1); in states 2..6 the
seconds are not drawn. -/
theorem seconds_rendered_iff_state_le_one (st : Nat) :
    secondsRendered st = true ↔ st = 0 ∨ st = 1 := by
  simp only [secondsRendered, decide_eq_true_eq]
  omega

/-- C2 counterexample: printscreen modifies the weekday variable (with
tim = 0, weekday = 3, setstate = 0 it overwrites weekday with 0), so
the weekday is not an independent counter touched only by the ADD_DAY
short press. -/
theorem printscreen_overwrites_weekday : printscreenWeekday 0 3 0 ≠ 3 := by
  decide

/-- C2 (amended): a short press in setting state 6 advances the weekday
cyclically (wrapping 6 to 0) and keeps it within 0..6, but the weekday
is not independent: printscreen recomputes it from the elapsed time as
(tim / 1000 / 60 / 60 / 24) % 7 whenever the setting state is 0 or 6. -/
theorem weekday_cycles_and_printscreen_recomputes (s : WatchState) (t : Nat)
    (h6 : s.setstate = 6) (hw : s.weekday ≤ 6) :
    (shortPress s).weekday = (s.weekday + 1) % 7 ∧
    (shortPress s).weekday ≤ 6 ∧
    printscreenWeekday t s.weekday s.setstate = t / 1000 / 60 / 60 / 24 % 7 := by
  simp [shortPress, h6, printscreenWeekday]
  by_cases h5 : s.weekday > 5 <;> simp [h5] <;> omega

/-- Witness for C2 at a concrete state (setstate 6, weekday 6) and a
concrete time. -/
theorem weekday_cycles_witness :
    (shortPress dayState).weekday = (dayState.weekday + 1) % 7 ∧
    (shortPress dayState).weekday ≤ 6 ∧
    printscreenWeekday 86400000 dayState.weekday dayState.setstate
      = 86400000 / 1000 / 60 / 60 / 24 % 7 :=
  weekday_cycles_and_printscreen_recomputes dayState 86400000 rfl (by decide)

/-- C3: the short-press dispatch on the setting state: state 0 (NONE)
leaves tim unchanged, state 1 subtracts (tim / 1000 % 60) * 1000 (so the
seconds component of the result is zero, and 125743 becomes 120743),
state 2 adds 60000 ms, state 3 adds 600000 ms, state 4 adds 3600000 ms
and state 5 adds 36000000 ms, each modulo 2^32. -/
theorem short_press_dispatch (t : Nat) :
    (shortPress (mkState 0 t)).tim = t ∧
    (shortPress (mkState 1 t)).tim = t - t / 1000 % 60 * 1000 ∧
    secondsOf (shortPress (mkState 1 t)).tim = 0 ∧
    (shortPress (mkState 1 125743)).tim = 120743 ∧
    (shortPress (mkState 2 t)).tim = (t + 60000) % U32 ∧
    (shortPress (mkState 3 t)).tim = (t + 600000) % U32 ∧
    (shortPress (mkState 4 t)).tim = (t + 3600000) % U32 ∧
    (shortPress (mkState 5 t)).tim = (t + 36000000) % U32 ∧
    (shortPress (mkState 6 t)).tim = t := by
  refine ⟨rfl, rfl, ?_, by decide, rfl, rfl, rfl, rfl, rfl⟩
  simp [shortPress, mkState, secondsOf]
  exact resetSeconds_secondsOf t

/-- C4: the displayed components are hours = (tim / 3600000) % 24,
minutes = (tim / 60000) % 60, seconds = (tim / 1000) % 60, for every
time value and in particular at the boundary values 0, 999, 1000,
3599999, 3600000 and 24 * 3600000 - 1 = 86399999. -/
theorem display_components (t : Nat) :
    hoursOf t = t / 3600000 % 24 ∧
    minutesOf t = t / 60000 % 60 ∧
    secondsOf t = t / 1000 % 60 ∧
    hoursOf 0 = 0 ∧ minutesOf 0 = 0 ∧ secondsOf 0 = 0 ∧
    secondsOf 999 = 0 ∧ secondsOf 1000 = 1 ∧
    hoursOf 3599999 = 0 ∧ minutesOf 3599999 = 59 ∧ secondsOf 3599999 = 59 ∧
    hoursOf 3600000 = 1 ∧ minutesOf 3600000 = 0 ∧ secondsOf 3600000 = 0 ∧
    hoursOf 86399999 = 23 ∧ minutesOf 86399999 = 59 ∧ secondsOf 86399999 = 59 := by
  refine ⟨?_, ?_, rfl, by decide, by decide, by decide, by decide, by decide,
    by decide, by decide, by decide, by decide, by decide, by decide,
    by decide, by decide, by decide⟩
  · simp [hoursOf, TIME1224, Nat.div_div_eq_div_mul]
  · simp [minutesOf, Nat.div_div_eq_div_mul]

/-- C5: a long press advances the setting state to (st + 1) % 7, so the
state stays within 0..6 and state 6 wraps to 0. -/
theorem setstate_cycles (st : Nat) (h : st ≤ 6) :
    (longPress (mkState st 0)).setstate = (st + 1) % 7 ∧
    (longPress (mkState st 0)).setstate ≤ 6 ∧
    (longPress (mkState 6 0)).setstate = 0 := by
  simp [longPress, mkState]
  by_cases h5 : st > 5 <;> simp [h5] <;> omega

/-- Witness for C5 at the wrap point st = 6. -/
theorem setstate_cycles_witness :
    (longPress (mkState 6 0)).setstate = (6 + 1) % 7 ∧
    (longPress (mkState 6 0)).setstate ≤ 6 ∧
    (longPress (mkState 6 0)).setstate = 0 :=
  setstate_cycles 6 (by decide)

/-- C6 counterexample: starting from tim = 4294967295 = 2^32 - 1,
applying the ADD_10_HOURS edit 24 times does not return the displayed
hours to their original value, because the 32-bit addition wraps: the
hours go from 17 to 23. -/
theorem add10hours_wrap_counterexample :
    hoursOf (shortPress^[24] (mkState 5 4294967295)).tim ≠ hoursOf 4294967295 := by
  have h := (shortPress_iter_five 4294967295 (by norm_num [U32]) 24).2
  rw [h]
  decide

/-- C6 (amended): whenever tim + 864000000 does not reach 2^32 (so no
32-bit wrap occurs), applying the ADD_10_HOURS edit exactly 24 times
returns the displayed hours component to its original value. -/
theorem add10hours_hour_law (t : Nat) (h : t + 864000000 < U32) :
    hoursOf (shortPress^[24] (mkState 5 t)).tim = hoursOf t := by
  have ht : t < U32 := by omega
  have h24 := (shortPress_iter_five t ht 24).2
  rw [h24, show (24 : Nat) * 36000000 = 864000000 by norm_num,
    Nat.mod_eq_of_lt h]
  simp only [hoursOf, TIME1224, Nat.div_div_eq_div_mul]
  omega

/-- Witness for C6 at t = 0. -/
theorem add10hours_hour_law_witness :
    0 + 864000000 < U32 ∧
    hoursOf (shortPress^[24] (mkState 5 0)).tim = hoursOf 0 :=
  ⟨by norm_num [U32], add10hours_hour_law 0 (by norm_num [U32])⟩

/-- C7: setsleep always leaves the setting state at 0 (NONE), every
byte of the display buffer at 0, the display powered off and the
sleeping flag set, regardless of the prior state. -/
theorem sleep_entry_effects (s : WatchState) :
    (setsleep s).setstate = 0 ∧
    (∀ i, (setsleep s).dbuf i = 0) ∧
    (setsleep s).displayOn = false ∧
    (setsleep s).issleep = true := by
  simp [setsleep, dbuffill, doff]

/-- C8 counterexample: a button-edge wake at millis() = 2^32 - 1 leaves
the deadline at (2^32 - 1 + 5000) % 2^32 = 4999, which is below wake
time + TIMEOUT: the 32-bit deadline arithmetic wraps, refuting the
unconditional claim. -/
theorem wake_deadline_counterexample :
    (pcint0 4294967295 sleepState).outtime < 4294967295 + TIMEOUT := by
  decide

/-- C8 (amended): a button-edge interrupt taken while sleeping clears
the sleeping flag, powers the display on, and sets the deadline to
wake time + TIMEOUT (hence at least that), provided wake time + TIMEOUT
stays below 2^32; in general the deadline is (now + TIMEOUT) % 2^32. -/
theorem wake_effects (s : WatchState) (now : Nat) (h : s.issleep = true)
    (hn : now + TIMEOUT < U32) :
    (pcint0 now s).issleep = false ∧
    (pcint0 now s).displayOn = true ∧
    (pcint0 now s).outtime = now + TIMEOUT ∧
    now + TIMEOUT ≤ (pcint0 now s).outtime := by
  simp [pcint0, h, setdtimeout, don, Nat.mod_eq_of_lt hn]

/-- Witness for C8 at the sleeping state and now = 0. -/
theorem wake_effects_witness :
    sleepState.issleep = true ∧ 0 + TIMEOUT < U32 ∧
    ((pcint0 0 sleepState).issleep = false ∧
     (pcint0 0 sleepState).displayOn = true ∧
     (pcint0 0 sleepState).outtime = 0 + TIMEOUT ∧
     0 + TIMEOUT ≤ (pcint0 0 sleepState).outtime) :=
  ⟨rfl, by norm_num [TIMEOUT, U32], wake_effects sleepState 0 rfl (by norm_num [TIMEOUT, U32])⟩

/-- C9: expand4bit duplicates every input bit i of a 4-bit value to the
two adjacent output bits 2i and 2i+1; in particular 0b0000 maps to 0x00
and 0b1111 maps to 0xFF. -/
theorem expand4bit_bit_doubling (v i : Nat) (hv : v < 16) (hi : i < 4) :
    (Nat.testBit (expand4bit v) (2 * i) = Nat.testBit v i ∧
     Nat.testBit (expand4bit v) (2 * i + 1) = Nat.testBit v i) ∧
    expand4bit 0x0 = 0x00 ∧ expand4bit 0xF = 0xFF := by
  have H : ∀ v, v < 16 → ∀ i, i < 4 →
      (Nat.testBit (expand4bit v) (2 * i) = Nat.testBit v i ∧
       Nat.testBit (expand4bit v) (2 * i + 1) = Nat.testBit v i) := by decide
  exact ⟨H v hv i hi, by decide, by decide⟩

/-- Witness for C9 at v = 15, i = 3. -/
theorem expand4bit_bit_doubling_witness :
    (Nat.testBit (expand4bit 15) (2 * 3) = Nat.testBit 15 3 ∧
     Nat.testBit (expand4bit 15) (2 * 3 + 1) = Nat.testBit 15 3) ∧
    expand4bit 0x0 = 0x00 ∧ expand4bit 0xF = 0xFF :=
  expand4bit_bit_doubling 15 3 (by decide) (by decide)

/-- C10: every mutation of tim is computed modulo 2^32: the tick drain
and the add-edits always yield a value below 2^32 (the reset-seconds
edit only decreases tim), 2^32 ms lies between 49 and 50 days (about
49.7 days: between 49.7 and 49.8), and at the wrap the displayed values
jump: draining 1 ms at tim = 2^32 - 1 yields 0, so hours jump from 17
to 0, minutes from 2 to 0 and seconds from 47 to 0. -/
theorem tim_wraps_mod_u32 (t r : Nat) :
    drainTim t r < U32 ∧
    (shortPress (mkState 5 t)).tim < U32 ∧
    (shortPress (mkState 1 t)).tim ≤ t ∧
    drainTim 4294967295 1 = 0 ∧
    hoursOf 4294967295 = 17 ∧ hoursOf 0 = 0 ∧
    minutesOf 4294967295 = 2 ∧ minutesOf 0 = 0 ∧
    secondsOf 4294967295 = 47 ∧ secondsOf 0 = 0 ∧
    49 * 86400000 < U32 ∧ U32 < 50 * 86400000 ∧
    497 * 86400000 ≤ 10 * U32 ∧ 10 * U32 ≤ 498 * 86400000 := by
  refine ⟨Nat.mod_lt _ (by norm_num [U32]), ?_, ?_, by decide, by decide,
    by decide, by decide, by decide, by decide, by decide, by decide,
    by decide, by decide, by decide⟩
  · simp [shortPress, mkState]
    exact Nat.mod_lt _ (by norm_num [U32])
  · simp [shortPress, mkState]

end Awatch
